import Mathlib

/-!
Shallow embedding of the segment lifecycle and synchronization logic of
`src/frontend/src/pages/annotate.js` (the `Annotate` React component).

Modelling conventions:
- A wavesurfer region is a `Region`; the collection `wavesurfer.regions.list`
  is the `regions` field of `AnnotateState` (ordered, keyed by `Region.id`).
- `state.selectedSegment` holds an object reference to a region in JS; we
  model it as `Option Region` and keep the alias consistent by updating both
  the list entry with the same `id` and the selected copy on every mutation,
  which reproduces the JS in-place mutation of the shared object.
- JS `undefined`/missing fields become `Option.none`; a JS throw
  (TypeError on dereferencing a `null` selection) becomes `Except.error ()`.
- Network effects are made explicit: a handler that performs an axios call
  takes the call outcome (`NetOutcome`) as an argument and returns the
  request it issued together with the state after the response callback ran.
- Times are rationals (JS numbers in the source carry seconds).
-/

/-- The value stored in an annotation entry by `handleLabelChange`:
a multiselect label stores `Array.from(e.target.selectedOptions, o => o.value)`
(a list of option value strings); any other label stores `e.target.value`
(a single string) verbatim. -/
inductive AnnotationValue where
  | single (v : String)
  | multi (vs : List String)
deriving DecidableEq

/-- One entry of `selectedSegment.data.annotations[key]`:
`{ label_id: labels[key]["label_id"], values: ... }`. -/
structure AnnotationEntry where
  label_id : Nat
  values : AnnotationValue
deriving DecidableEq

/-- The JS object `selectedSegment.data.annotations`, keyed by label name. -/
abbrev Annotations := List (String × AnnotationEntry)

/-- JS keyed assignment `annotations[key] = entry`: replaces the entry for
`key` when present, otherwise appends it. -/
def setAnnotationEntry : Annotations → String → AnnotationEntry → Annotations
  | [], key, e => [(key, e)]
  | (k, v) :: rest, key, e =>
      if k = key then (k, e) :: rest else (k, v) :: setAnnotationEntry rest key e

/-- JS keyed lookup `annotations[key]` (`none` models `undefined`). -/
def getAnnotationEntry : Annotations → String → Option AnnotationEntry
  | [], _ => none
  | (k, v) :: rest, key => if k = key then some v else getAnnotationEntry rest key

/-- The `data` object attached to a wavesurfer region: `segmentation_id`,
`transcription` and `annotations` are all absent on a freshly drawn region
and populated by hydration or by the edit handlers. -/
structure SegmentData where
  segmentation_id : Option Nat := none
  transcription : Option String := none
  annotations : Option Annotations := none
deriving DecidableEq

/-- A wavesurfer region: the region id (the key in `wavesurfer.regions.list`),
its `start` and `end` times, and its `data` payload. -/
structure Region where
  id : Nat
  start : ℚ
  «end» : ℚ
  data : SegmentData
deriving DecidableEq

/-- The component state fields relevant to the segment lifecycle, from the
constructor of `Annotate` (annotate.js lines 36-71) plus the regions list
owned by wavesurfer. `nextRegionId` models wavesurfer's fresh region ids. -/
structure AnnotateState where
  regions : List Region := []
  nextRegionId : Nat := 0
  selectedSegment : Option Region := none
  isMarkedForReview : Bool := false
  isDataLoading : Bool := false
  isSegmentSaving : Bool := false
  isSegmentDeleting : Bool := false
  errorMessage : Option String := none
  successMessage : Option String := none
deriving DecidableEq

/-- Lookup of `wavesurfer.regions.list[id]`. -/
def findRegion (rs : List Region) (rid : Nat) : Option Region :=
  rs.find? (fun r => r.id == rid)

/-- Replace the region with the given id in the list (in JS this is the
in-place mutation of the shared region object). -/
def putRegion (rs : List Region) (r : Region) : List Region :=
  rs.map (fun q => if q.id == r.id then r else q)

/-- The initial component state: no regions, nothing selected. -/
def initAnnotateState : AnnotateState := {}

/-- `wavesurfer.addRegion({start, end, data})`: appends a region with a fresh
id to the regions list. -/
def addRegion (s : AnnotateState) (start stop : ℚ) (data : SegmentData) : AnnotateState :=
  { s with
    regions := s.regions ++ [{ id := s.nextRegionId, start := start, «end» := stop, data := data }],
    nextRegionId := s.nextRegionId + 1 }

/-- A region created by the user drawing on the waveform
(`wavesurfer.enableDragSelection`): such a region carries an empty `data`
object, so `segmentation_id`, `transcription` and `annotations` are absent. -/
def dragCreatedRegion (rid : Nat) (start stop : ℚ) : Region :=
  { id := rid, start := start, «end» := stop, data := {} }

/-- One element of the backend `segmentations` list
(annotate.js lines 182-192). -/
structure Segmentation where
  segmentation_id : Nat
  start_time : ℚ
  end_time : ℚ
  transcription : String
  annotations : Annotations
deriving DecidableEq

/-- The region `data` built from one backend segmentation entry
(annotate.js lines 183-191). -/
def segmentationData (seg : Segmentation) : SegmentData :=
  { segmentation_id := some seg.segmentation_id,
    transcription := some seg.transcription,
    annotations := some seg.annotations }

/-- `loadRegions(regions)` (annotate.js lines 218-223): adds one region per
hydrated backend segmentation, in list order. -/
def loadRegions (s : AnnotateState) (segs : List Segmentation) : AnnotateState :=
  segs.foldl (fun st seg => addRegion st seg.start_time seg.end_time (segmentationData seg)) s

/-- The wavesurfer `ready` handler (annotate.js lines 129-141): if the regions
list is empty it adds a full-duration region `{start: 0, end: duration}` and
selects the first (hence that) region; otherwise it does nothing. -/
def readyHandler (s : AnnotateState) (duration : ℚ) : AnnotateState :=
  if s.regions.isEmpty then
    let s1 := addRegion s 0 duration {}
    { s1 with selectedSegment := s1.regions.head? }
  else s

/-- The load pipeline for one audio item: `loadRegions` runs synchronously in
the data-fetch callback right after `wavesurfer.load` is issued, and the
`ready` event only fires later, once the audio buffer has decoded, so the
`ready` handler observes the hydrated regions. -/
def hydrate (segs : List Segmentation) (duration : ℚ) : AnnotateState :=
  readyHandler (loadRegions initAnnotateState segs) duration

/-- Outcome of an axios call: the resolved response body, or a rejection. -/
inductive NetOutcome (β : Type) where
  | success (body : β)
  | failure
deriving DecidableEq

/-- The request body sent by `handleSegmentSave` for both create and update:
`{start, end, transcription, annotations}` from the selected region. -/
structure SavePayload where
  start : ℚ
  «end» : ℚ
  transcription : Option String
  annotations : Option Annotations
deriving DecidableEq

/-- The single HTTP request issued by one run of `handleSegmentSave`:
either `POST segmentationUrl` (create) or
`PUT segmentationUrl/<segmentation_id>` (update). -/
inductive SaveRequest where
  | post (payload : SavePayload)
  | put (segmentation_id : Nat) (payload : SavePayload)
deriving DecidableEq

/-- The response body of the create call; only `segmentation_id` is read
(annotate.js line 343). -/
structure SaveResponseBody where
  segmentation_id : Option Nat := none
deriving DecidableEq

/-- The `{start, end, transcription, annotations}` payload read off the
selected region at the top of `handleSegmentSave` (annotate.js lines 320-327). -/
def savePayload (r : Region) : SavePayload :=
  { start := r.start, «end» := r.«end»,
    transcription := r.data.transcription, annotations := r.data.annotations }

/-- `handleSegmentSave` (annotate.js lines 319-387). Destructuring
`const {start, end} = selectedSegment` throws on a `null` selection
(`Except.error`). With `segmentation_id = null` as destructuring default,
an absent id selects the POST (create) branch and a present id the PUT
(update) branch targeted at that id. Returns the request issued and the
state after the response callback. -/
def handleSegmentSave (s : AnnotateState) (resp : NetOutcome SaveResponseBody) :
    Except Unit (SaveRequest × AnnotateState) :=
  match s.selectedSegment with
  | none => .error ()
  | some r =>
    let s1 := { s with isSegmentSaving := true }
    match r.data.segmentation_id with
    | none =>
      match resp with
      | .success body =>
        let r1 := { r with data := { r.data with segmentation_id := body.segmentation_id } }
        .ok (.post (savePayload r),
          { s1 with
            isSegmentSaving := false,
            regions := putRegion s1.regions r1,
            selectedSegment := some r1,
            successMessage := some "Segment saved",
            errorMessage := none })
      | .failure =>
        .ok (.post (savePayload r),
          { s1 with
            isSegmentSaving := false,
            errorMessage := some "Error saving segment",
            successMessage := none })
    | some sid =>
      match resp with
      | .success _ =>
        .ok (.put sid (savePayload r),
          { s1 with
            isSegmentSaving := false,
            successMessage := some "Segment saved",
            errorMessage := none })
      | .failure =>
        .ok (.put sid (savePayload r),
          { s1 with
            isSegmentSaving := false,
            errorMessage := some "Error saving segment",
            successMessage := none })

/-- JS truthiness of `selectedSegment.data.segmentation_id`
(`undefined`/`null` and `0` are falsy; backend ids are positive integers). -/
def idTruthy : Option Nat → Bool
  | none => false
  | some n => n != 0

/-- `handleSegmentDelete` (annotate.js lines 289-317). Dereferencing
`selectedSegment.data` throws on a `null` selection. A truthy
`segmentation_id` issues `DELETE segmentationUrl/<id>` and removes the
region and clears the selection only in the `.then`; the `.catch` merely
clears the busy flag. A falsy id removes the region locally with no network
call. The first component of the result is the backend id targeted by the
delete request, or `none` when no request was issued; `outcome` is the
axios call outcome (ignored when no call is made). -/
def handleSegmentDelete (s : AnnotateState) (outcome : Bool) :
    Except Unit (Option Nat × AnnotateState) :=
  match s.selectedSegment with
  | none => .error ()
  | some r =>
    let s1 := { s with isSegmentDeleting := true }
    if idTruthy r.data.segmentation_id then
      if outcome then
        match findRegion s1.regions r.id with
        | none => .error ()
        | some _ =>
          .ok (r.data.segmentation_id,
            { s1 with
              regions := s1.regions.filter (fun q => q.id != r.id),
              selectedSegment := none,
              isSegmentDeleting := false })
      else
        .ok (r.data.segmentation_id, { s1 with isSegmentDeleting := false })
    else
      match findRegion s1.regions r.id with
      | none => .error ()
      | some _ =>
        .ok (none,
          { s1 with
            regions := s1.regions.filter (fun q => q.id != r.id),
            selectedSegment := none,
            isSegmentDeleting := false })

/-- `handleTranscriptionChange` (annotate.js lines 389-393): assigns
`selectedSegment.data.transcription = e.target.value`. There is no null
guard, so with no selection the property assignment throws a TypeError
(`Except.error`). -/
def handleTranscriptionChange (s : AnnotateState) (value : String) :
    Except Unit AnnotateState :=
  match s.selectedSegment with
  | none => .error ()
  | some r =>
    let r1 := { r with data := { r.data with transcription := some value } }
    .ok { s with regions := putRegion s.regions r1, selectedSegment := some r1 }

/-- One label of the catalog `labels[key]` (only the fields the handlers
read: `label_id` and `type`). -/
structure LabelDef where
  label_id : Nat
  type : String
deriving DecidableEq

/-- The label catalog `this.state.labels`, keyed by label name. -/
abbrev Labels := List (String × LabelDef)

/-- JS keyed lookup `labels[key]` (`none` models `undefined`). -/
def lookupLabel : Labels → String → Option LabelDef
  | [], _ => none
  | (k, v) :: rest, key => if k = key then some v else lookupLabel rest key

/-- The fields of `e.target` read by `handleLabelChange`: `value` for a
single-choice select, `selectedOptions` (as their value strings) for a
multiselect. -/
structure SelectTarget where
  value : String := ""
  selectedOptions : List String := []
deriving DecidableEq

/-- `handleLabelChange(key, e)` (annotate.js lines 395-410). Dereferencing
`selectedSegment.data` with no selection throws, as does reading
`labels[key]["type"]` for an unknown key. Otherwise
`annotations = annotations || {}` and `annotations[key]` is overwritten with
`{label_id, values}` where `values` is the full list of selected option
values for a multiselect label and `e.target.value` verbatim otherwise. -/
def handleLabelChange (s : AnnotateState) (labels : Labels) (key : String)
    (target : SelectTarget) : Except Unit AnnotateState :=
  match s.selectedSegment with
  | none => .error ()
  | some r =>
    match lookupLabel labels key with
    | none => .error ()
    | some ldef =>
      let anns := r.data.annotations.getD []
      let entry : AnnotationEntry :=
        if ldef.type = "multiselect" then
          { label_id := ldef.label_id, values := .multi target.selectedOptions }
        else
          { label_id := ldef.label_id, values := .single target.value }
      let r1 := { r with data := { r.data with annotations := some (setAnnotationEntry anns key entry) } }
      .ok { s with regions := putRegion s.regions r1, selectedSegment := some r1 }

/-- The request body of the review-flag PATCH (annotate.js lines 264-270). -/
structure ReviewRequest where
  is_marked_for_review : Bool
deriving DecidableEq

/-- The response body of the review-flag PATCH; only `is_marked_for_review`
is read (annotate.js line 274). -/
structure ReviewResponseBody where
  is_marked_for_review : Bool
deriving DecidableEq

/-- `handleIsMarkedForReview(e)` (annotate.js lines 259-287): issues a PATCH
with the checkbox value the user just set; on success the state adopts the
value echoed by the response, on failure only the error message is set and
`isMarkedForReview` keeps its previous value. Returns the request issued
and the state after the response callback. -/
def handleIsMarkedForReview (s : AnnotateState) (checked : Bool)
    (resp : NetOutcome ReviewResponseBody) : ReviewRequest × AnnotateState :=
  let s1 := { s with isDataLoading := true }
  match resp with
  | .success body =>
    ({ is_marked_for_review := checked },
     { s1 with
       isDataLoading := false,
       isMarkedForReview := body.is_marked_for_review,
       errorMessage := none,
       successMessage := some "Marked for review status changed" })
  | .failure =>
    ({ is_marked_for_review := checked },
     { s1 with
       isDataLoading := false,
       errorMessage := some "Error changing review status",
       successMessage := none })

/-- The `checked` attribute of the review checkbox computed by `render`
(annotate.js line 667: `checked={isMarkedForReview}`). -/
def renderedReviewCheckbox (s : AnnotateState) : Bool :=
  s.isMarkedForReview

/-- The value of the placeholder option rendered for every single-choice
label (annotate.js line 593: `<option value="-1">Choose Label Type</option>`). -/
def singleChoicePlaceholderValue : String := "-1"

/-! ### Shared lemmas -/

theorem getAnnotationEntry_set (m : Annotations) (key : String) (e : AnnotationEntry) :
    getAnnotationEntry (setAnnotationEntry m key e) key = some e := by
  induction m with
  | nil => simp [setAnnotationEntry, getAnnotationEntry]
  | cons p rest ih =>
    obtain ⟨k, v⟩ := p
    by_cases h : k = key <;> simp [setAnnotationEntry, getAnnotationEntry, h, ih]

theorem loadRegions_segmentIds (segs : List Segmentation) (s : AnnotateState) :
    ((loadRegions s segs).regions).map (fun r => r.data.segmentation_id) =
      (s.regions.map fun r => r.data.segmentation_id) ++
        segs.map (fun seg => some seg.segmentation_id) := by
  induction segs generalizing s with
  | nil => simp [loadRegions]
  | cons seg rest ih =>
    have h1 : loadRegions s (seg :: rest) =
        loadRegions (addRegion s seg.start_time seg.end_time (segmentationData seg)) rest := rfl
    rw [h1, ih]
    simp [addRegion, segmentationData]

theorem handleLabelChange_selected (s : AnnotateState) (labels : Labels) (key : String)
    (r : Region) (ldef : LabelDef) (target : SelectTarget)
    (hsel : s.selectedSegment = some r)
    (hl : lookupLabel labels key = some ldef) :
    ∃ s1 r1, handleLabelChange s labels key target = .ok s1 ∧
      s1.selectedSegment = some r1 ∧
      r1.data.annotations = some (setAnnotationEntry (r.data.annotations.getD []) key
        (if ldef.type = "multiselect" then
          { label_id := ldef.label_id, values := .multi target.selectedOptions }
        else { label_id := ldef.label_id, values := .single target.value })) := by
  simp only [handleLabelChange, hsel, hl]
  exact ⟨_, _, rfl, rfl, rfl⟩

/-! ### Claim theorems -/

/-- C4: hydrating a backend segmentation list of length N ≥ 1 produces exactly
N regions whose `segmentation_id`s are, in order, exactly the source ids (in
particular every hydrated region carries a present backend id, so no
auto-created full-duration record is in the collection). -/
theorem hydrate_nonempty_exact (segs : List Segmentation) (duration : ℚ)
    (hne : segs ≠ []) :
    (hydrate segs duration).regions.length = segs.length ∧
    (hydrate segs duration).regions.map (fun r => r.data.segmentation_id) =
      segs.map (fun seg => some seg.segmentation_id) := by
  have hmap : ((loadRegions initAnnotateState segs).regions).map
      (fun r => r.data.segmentation_id) = segs.map (fun seg => some seg.segmentation_id) := by
    rw [loadRegions_segmentIds]
    simp [initAnnotateState]
  have hne2 : (loadRegions initAnnotateState segs).regions ≠ [] := by
    intro h
    apply hne
    rw [h] at hmap
    simpa using hmap.symm
  have hready : hydrate segs duration = loadRegions initAnnotateState segs := by
    unfold hydrate readyHandler
    rcases h : (loadRegions initAnnotateState segs).regions with _ | ⟨a, l⟩
    · exact absurd h hne2
    · simp [h]
  rw [hready]
  refine ⟨?_, hmap⟩
  have := congrArg List.length hmap
  simpa using this

def sampleSegmentation : Segmentation :=
  { segmentation_id := 7, start_time := 0, end_time := 2,
    transcription := "hello", annotations := [] }

theorem hydrate_nonempty_exact_witness :
    (hydrate [sampleSegmentation] 5).regions.length = [sampleSegmentation].length ∧
    (hydrate [sampleSegmentation] 5).regions.map (fun r => r.data.segmentation_id) =
      [sampleSegmentation].map (fun seg => some seg.segmentation_id) :=
  hydrate_nonempty_exact [sampleSegmentation] 5 (by decide)

/-- C5: hydrating an empty segmentation list yields exactly one auto-created
region spanning [0, duration] with no `segmentation_id`, and that region
becomes the selection. -/
theorem hydrate_empty_autocreates (duration : ℚ) :
    (hydrate [] duration).regions =
      [{ id := 0, start := 0, «end» := duration,
         data := { segmentation_id := none, transcription := none, annotations := none } }] ∧
    (hydrate [] duration).selectedSegment =
      some { id := 0, start := 0, «end» := duration,
             data := { segmentation_id := none, transcription := none, annotations := none } } :=
  ⟨rfl, rfl⟩

/-- C1: saving a selected record whose `segmentation_id` is present issues a
PUT targeted at that id (never a POST), and for any response outcome the
regions list and the selected record — hence its backend id — are unchanged. -/
theorem save_present_id_puts_and_preserves (s : AnnotateState) (r : Region) (sid : Nat)
    (hsel : s.selectedSegment = some r)
    (hid : r.data.segmentation_id = some sid)
    (resp : NetOutcome SaveResponseBody) :
    ∃ s1, handleSegmentSave s resp = .ok (SaveRequest.put sid (savePayload r), s1) ∧
      s1.regions = s.regions ∧
      s1.selectedSegment = some r ∧
      (s1.selectedSegment.map fun q => q.data.segmentation_id) = some (some sid) := by
  cases resp with
  | success body =>
    refine ⟨{ s with
                isSegmentSaving := false
                successMessage := some "Segment saved"
                errorMessage := none }, ?_, rfl, hsel, ?_⟩
    · simp [handleSegmentSave, hsel, hid]
    · show (s.selectedSegment.map fun q => q.data.segmentation_id) = some (some sid)
      rw [hsel]
      simp [hid]
  | failure =>
    refine ⟨{ s with
                isSegmentSaving := false
                errorMessage := some "Error saving segment"
                successMessage := none }, ?_, rfl, hsel, ?_⟩
    · simp [handleSegmentSave, hsel, hid]
    · show (s.selectedSegment.map fun q => q.data.segmentation_id) = some (some sid)
      rw [hsel]
      simp [hid]

def regionWithId7 : Region :=
  { id := 0, start := 0, «end» := 1,
    data := { segmentation_id := some 7, transcription := some "hello", annotations := none } }

def stateWithId7 : AnnotateState :=
  { regions := [regionWithId7], selectedSegment := some regionWithId7 }

theorem save_present_id_witness :
    ∃ s1, handleSegmentSave stateWithId7 (NetOutcome.success { segmentation_id := some 99 }) =
        .ok (SaveRequest.put 7 (savePayload regionWithId7), s1) ∧
      s1.regions = stateWithId7.regions ∧
      s1.selectedSegment = some regionWithId7 ∧
      (s1.selectedSegment.map fun q => q.data.segmentation_id) = some (some 7) :=
  save_present_id_puts_and_preserves stateWithId7 regionWithId7 7 rfl rfl
    (NetOutcome.success { segmentation_id := some 99 })

/-- C2: a region drawn by the user carries no `segmentation_id`; saving a
selected record with no `segmentation_id` issues exactly one request and it
is a POST (create); on success the backend-returned `segmentation_id` is
written into the record, and on failure the record still has no id. -/
theorem save_absent_id_posts_and_assigns (s : AnnotateState) (r : Region) (n : Nat)
    (hsel : s.selectedSegment = some r)
    (hid : r.data.segmentation_id = none) :
    (∀ rid a b, (dragCreatedRegion rid a b).data.segmentation_id = none) ∧
    (∃ s1, handleSegmentSave s (NetOutcome.success { segmentation_id := some n }) =
        .ok (SaveRequest.post (savePayload r), s1) ∧
      (s1.selectedSegment.map fun q => q.data.segmentation_id) = some (some n)) ∧
    (∃ s2, handleSegmentSave s NetOutcome.failure =
        .ok (SaveRequest.post (savePayload r), s2) ∧
      (s2.selectedSegment.map fun q => q.data.segmentation_id) = some none) := by
  refine ⟨fun rid a b => rfl, ⟨?_, ?_, ?_⟩, ⟨?_, ?_, ?_⟩⟩
  · exact { s with
      isSegmentSaving := false
      regions := putRegion s.regions
        { r with data := { r.data with segmentation_id := some n } }
      selectedSegment := some { r with data := { r.data with segmentation_id := some n } }
      successMessage := some "Segment saved"
      errorMessage := none }
  · simp [handleSegmentSave, hsel, hid]
  · rfl
  · exact { s with
      isSegmentSaving := false
      errorMessage := some "Error saving segment"
      successMessage := none }
  · simp [handleSegmentSave, hsel, hid]
  · show (s.selectedSegment.map fun q => q.data.segmentation_id) = some none
    rw [hsel]
    simp [hid]

def newRegion0 : Region := dragCreatedRegion 0 0 1

def stateWithNewRegion : AnnotateState :=
  { regions := [newRegion0], selectedSegment := some newRegion0 }

theorem save_absent_id_witness :
    (∀ rid a b, (dragCreatedRegion rid a b).data.segmentation_id = none) ∧
    (∃ s1, handleSegmentSave stateWithNewRegion
          (NetOutcome.success { segmentation_id := some 42 }) =
        .ok (SaveRequest.post (savePayload newRegion0), s1) ∧
      (s1.selectedSegment.map fun q => q.data.segmentation_id) = some (some 42)) ∧
    (∃ s2, handleSegmentSave stateWithNewRegion NetOutcome.failure =
        .ok (SaveRequest.post (savePayload newRegion0), s2) ∧
      (s2.selectedSegment.map fun q => q.data.segmentation_id) = some none) :=
  save_absent_id_posts_and_assigns stateWithNewRegion newRegion0 42 rfl rfl

/-- C8: when a save of the selected record is rejected, the resulting state
keeps the regions list and the selected record (transcription, annotations
and backend id included) exactly as they were; only the busy flag is cleared
and a user-visible error message replaces the success message. -/
theorem save_failure_preserves_edits (s : AnnotateState) (r : Region)
    (hsel : s.selectedSegment = some r) :
    ∃ req, handleSegmentSave s NetOutcome.failure =
      .ok (req, { s with
                    isSegmentSaving := false
                    errorMessage := some "Error saving segment"
                    successMessage := none }) := by
  rcases h : r.data.segmentation_id with _ | sid
  · exact ⟨SaveRequest.post (savePayload r), by simp [handleSegmentSave, hsel, h]⟩
  · exact ⟨SaveRequest.put sid (savePayload r), by simp [handleSegmentSave, hsel, h]⟩

theorem save_failure_witness :
    ∃ req, handleSegmentSave stateWithId7 NetOutcome.failure =
      .ok (req, { stateWithId7 with
                    isSegmentSaving := false
                    errorMessage := some "Error saving segment"
                    successMessage := none }) :=
  save_failure_preserves_edits stateWithId7 regionWithId7 rfl

/-- C3: deleting the selected record: with a truthy backend id a DELETE
targeted at that id is issued, the record is removed and the selection
cleared only on success, while on failure only the busy flag changes, so the
record is still in the collection and still selected; with no backend id no
request is issued and the record is removed and the selection cleared
synchronously for either outcome. -/
theorem delete_semantics (s : AnnotateState) (r : Region)
    (hsel : s.selectedSegment = some r)
    (hfind : (findRegion s.regions r.id).isSome = true) :
    (∀ sid, r.data.segmentation_id = some sid → sid ≠ 0 →
      (∃ s1, handleSegmentDelete s true = .ok (some sid, s1) ∧
        s1.regions = s.regions.filter (fun q => q.id != r.id) ∧
        s1.selectedSegment = none) ∧
      handleSegmentDelete s false =
        .ok (some sid, { s with isSegmentDeleting := false })) ∧
    (r.data.segmentation_id = none →
      ∀ outcome, handleSegmentDelete s outcome =
        .ok (none, { s with
          regions := s.regions.filter (fun q => q.id != r.id)
          selectedSegment := none
          isSegmentDeleting := false })) := by
  obtain ⟨q, hq⟩ := Option.isSome_iff_exists.mp hfind
  constructor
  · intro sid hs hsid
    constructor
    · refine ⟨{ s with
          regions := s.regions.filter (fun q => q.id != r.id)
          selectedSegment := none
          isSegmentDeleting := false }, ?_, rfl, rfl⟩
      simp [handleSegmentDelete, hsel, idTruthy, hs, hsid, hq]
    · simp [handleSegmentDelete, hsel, idTruthy, hs, hsid]
  · intro hs outcome
    simp [handleSegmentDelete, hsel, idTruthy, hs, hq]

theorem delete_semantics_witness :
    (∃ s1, handleSegmentDelete stateWithId7 true = .ok (some 7, s1) ∧
      s1.regions = stateWithId7.regions.filter (fun q => q.id != regionWithId7.id) ∧
      s1.selectedSegment = none) ∧
    handleSegmentDelete stateWithId7 false =
      .ok (some 7, { stateWithId7 with isSegmentDeleting := false }) ∧
    handleSegmentDelete stateWithNewRegion true =
      .ok (none, { stateWithNewRegion with
        regions := stateWithNewRegion.regions.filter (fun q => q.id != newRegion0.id)
        selectedSegment := none
        isSegmentDeleting := false }) := by
  refine ⟨?_, ?_, ?_⟩
  · exact ((delete_semantics stateWithId7 regionWithId7 rfl rfl).1 7 rfl (by decide)).1
  · exact ((delete_semantics stateWithId7 regionWithId7 rfl rfl).1 7 rfl (by decide)).2
  · exact (delete_semantics stateWithNewRegion newRegion0 rfl rfl).2 rfl true

/-- C6: changing a multiselect label stores the full replacement list of the
currently selected option values: applying the handler with values vs1 and
then vs2 leaves the annotation entry for that label holding exactly vs2. -/
theorem multiselect_stores_replacement (s : AnnotateState) (labels : Labels) (key : String)
    (r : Region) (ldef : LabelDef) (vs1 vs2 : List String)
    (hsel : s.selectedSegment = some r)
    (hl : lookupLabel labels key = some ldef)
    (hty : ldef.type = "multiselect") :
    ∃ s1 s2,
      handleLabelChange s labels key { value := "", selectedOptions := vs1 } = .ok s1 ∧
      handleLabelChange s1 labels key { value := "", selectedOptions := vs2 } = .ok s2 ∧
      (s2.selectedSegment.map fun q => getAnnotationEntry (q.data.annotations.getD []) key) =
        some (some { label_id := ldef.label_id, values := AnnotationValue.multi vs2 }) := by
  obtain ⟨s1, r1, h1, hsel1, hann1⟩ :=
    handleLabelChange_selected s labels key r ldef { value := "", selectedOptions := vs1 } hsel hl
  obtain ⟨s2, r2, h2, hsel2, hann2⟩ :=
    handleLabelChange_selected s1 labels key r1 ldef { value := "", selectedOptions := vs2 } hsel1 hl
  refine ⟨s1, s2, h1, h2, ?_⟩
  rw [hsel2]
  simp [hann2, hty, getAnnotationEntry_set]

def moodLabel : LabelDef := { label_id := 3, type := "multiselect" }

def qualityLabel : LabelDef := { label_id := 4, type := "select" }

def sampleLabels : Labels := [("mood", moodLabel), ("quality", qualityLabel)]

theorem multiselect_stores_replacement_witness :
    ∃ s1 s2,
      handleLabelChange stateWithId7 sampleLabels "mood"
          { value := "", selectedOptions := ["2", "5"] } = .ok s1 ∧
      handleLabelChange s1 sampleLabels "mood"
          { value := "", selectedOptions := ["5"] } = .ok s2 ∧
      (s2.selectedSegment.map fun q => getAnnotationEntry (q.data.annotations.getD []) "mood") =
        some (some { label_id := 3, values := AnnotationValue.multi ["5"] }) :=
  multiselect_stores_replacement stateWithId7 sampleLabels "mood" regionWithId7 moodLabel
    ["2", "5"] ["5"] rfl rfl rfl

/-- C10: for a non-multiselect label the handler stores the reported control
value verbatim as the entry value — including the placeholder sentinel value
"-1" rendered as the "Choose Label Type" option — creating or overwriting
the annotation entry rather than removing it. -/
theorem single_choice_stores_verbatim (s : AnnotateState) (labels : Labels) (key : String)
    (r : Region) (ldef : LabelDef) (v : String)
    (hsel : s.selectedSegment = some r)
    (hl : lookupLabel labels key = some ldef)
    (hty : ldef.type ≠ "multiselect") :
    ∃ s1, handleLabelChange s labels key { value := v, selectedOptions := [] } = .ok s1 ∧
      (s1.selectedSegment.map fun q => getAnnotationEntry (q.data.annotations.getD []) key) =
        some (some { label_id := ldef.label_id, values := AnnotationValue.single v }) := by
  obtain ⟨s1, r1, h1, hsel1, hann1⟩ :=
    handleLabelChange_selected s labels key r ldef { value := v, selectedOptions := [] } hsel hl
  refine ⟨s1, h1, ?_⟩
  rw [hsel1]
  simp [hann1, hty, getAnnotationEntry_set]

theorem single_choice_stores_verbatim_witness :
    ∃ s1, handleLabelChange stateWithId7 sampleLabels "quality"
        { value := singleChoicePlaceholderValue, selectedOptions := [] } = .ok s1 ∧
      (s1.selectedSegment.map fun q => getAnnotationEntry (q.data.annotations.getD []) "quality") =
        some (some { label_id := 4,
                     values := AnnotationValue.single singleChoicePlaceholderValue }) :=
  single_choice_stores_verbatim stateWithId7 sampleLabels "quality" regionWithId7 qualityLabel
    singleChoicePlaceholderValue rfl rfl (by decide)

/-- C7 counterexample: with no record selected, `handleTranscriptionChange`
throws (the unguarded dereference of the `null` selection) instead of
leaving the state unchanged without failing. -/
theorem transcription_no_selection_cex :
    handleTranscriptionChange initAnnotateState "hello" = Except.error () ∧
    handleTranscriptionChange initAnnotateState "hello" ≠ Except.ok initAnnotateState := by
  refine ⟨rfl, fun h => ?_⟩
  exact Except.noConfusion h

/-- C7 (amended): with no record selected, `handleTranscriptionChange` fails
with a thrown TypeError (no state is produced) rather than silently
no-opping; the in-memory state is not modified by the throw. -/
theorem transcription_no_selection_throws (s : AnnotateState) (v : String)
    (h : s.selectedSegment = none) :
    handleTranscriptionChange s v = Except.error () := by
  simp [handleTranscriptionChange, h]

theorem transcription_no_selection_throws_witness :
    handleTranscriptionChange initAnnotateState "x" = Except.error () :=
  transcription_no_selection_throws initAnnotateState "x" rfl

/-- C9 counterexample: starting from `isMarkedForReview = false`, the user
sets the checkbox to `true` and the PATCH fails; an error is set but the
rendered checkbox value is `false` — the prior value — not `true` as the
user set it. -/
theorem review_failure_cex :
    renderedReviewCheckbox
        (handleIsMarkedForReview initAnnotateState true NetOutcome.failure).2 = false ∧
    (handleIsMarkedForReview initAnnotateState true NetOutcome.failure).2.errorMessage =
      some "Error changing review status" ∧
    renderedReviewCheckbox
        (handleIsMarkedForReview initAnnotateState true NetOutcome.failure).2 ≠ true := by
  refine ⟨rfl, rfl, fun h => ?_⟩
  exact Bool.noConfusion h

/-- C9 (amended): the PATCH request carries the value the user set; on
success the rendered checkbox equals the value confirmed by the response;
on failure an error message is shown and the component state backing the
rendered checkbox keeps its previous value, so the controlled checkbox
reverts to the prior value rather than staying as the user set it. -/
theorem review_flag_semantics (s : AnnotateState) (checked : Bool)
    (body : ReviewResponseBody) :
    renderedReviewCheckbox (handleIsMarkedForReview s checked (NetOutcome.success body)).2 =
        body.is_marked_for_review ∧
    (handleIsMarkedForReview s checked NetOutcome.failure).2.errorMessage =
        some "Error changing review status" ∧
    renderedReviewCheckbox (handleIsMarkedForReview s checked NetOutcome.failure).2 =
        s.isMarkedForReview ∧
    (handleIsMarkedForReview s checked NetOutcome.failure).1 =
        { is_marked_for_review := checked } :=
  ⟨rfl, rfl, rfl, rfl⟩
